import Mathlib

/-!
Shallow embedding of the `vrm-factory` pipeline (ruslanmv/3D-Avatar-Chatbot).

The repository's stages are Blender/python scripts; each stage reads files,
transforms an in-memory scene, and writes an output file.  We embed:

* the Blender scene as a list of objects (`Obj`), keeping exactly the fields
  the scripts inspect or mutate (object type, parent's type, bounding box,
  scale, z-location, shape-key names);
* the vision landmark report (`Report`) as produced by
  `vision_brain.py: analyze_image`;
* each script as a Lean function from its inputs to an outcome recording the
  process exit code and the file written (if any);
* the FastAPI orchestrator `server.py: convert_to_vrm` over an environment
  of external process results, and `cleanup_file` over a directory listing;
* `pathlib.Path.stem` / `.name` and glob pattern matching, used by the
  server for artifact naming and cleanup.

Rationals stand in for python floats (the claims under study are about which
formula is computed, not float rounding).
-/

/-! ## Blender scene model -/

/-- Blender object types distinguished by the scripts
(`o.type == 'MESH'`, `parent.type == 'ARMATURE'`). -/
inductive ObjType where
  | MESH
  | ARMATURE
  | OTHER
deriving DecidableEq, Repr

/-- A Blender object, restricted to the fields the scripts read or write.
`boundBox` is `o.bound_box` (list of corner points, each `(x, y, z)`);
`parentType` is `o.parent.type` when `o.parent` is set (`none` models
`parent = None`); `shapeKeyNames` is the name list of
`o.data.shape_keys.key_blocks` when `o.data.shape_keys` is set. -/
structure Obj where
  type : ObjType
  parentType : Option ObjType
  boundBox : List (ℚ × ℚ × ℚ)
  scale : ℚ × ℚ × ℚ
  locZ : ℚ
  shapeKeyNames : Option (List String)
deriving DecidableEq, Repr

/-- A scene: `bpy.data.objects` after import, in order. -/
abbrev Scene := List Obj

/-- `meshes = [o for o in bpy.data.objects if o.type == 'MESH']; meshes[0]`:
the first mesh object of the scene, if any. -/
def firstMesh (s : Scene) : Option Obj :=
  s.find? fun o => o.type = ObjType.MESH

/-- Replace the first mesh object of the scene (in place, keeping order),
modelling mutation of `meshes[0]`. -/
def replaceFirstMesh : Scene → Obj → Scene
  | [], _ => []
  | o :: os, m => if o.type = ObjType.MESH then m :: os else o :: replaceFirstMesh os m

/-- Number of armature objects in a scene. -/
def countArmatures (s : Scene) : Nat :=
  (s.filter fun o => o.type = ObjType.ARMATURE).length

/-! ## Vision report model (`vision_brain.py`) -/

/-- One pose landmark: normalized `{x, y, z, visibility}`. -/
structure JointData where
  x : ℚ
  y : ℚ
  z : ℚ
  visibility : ℚ
deriving DecidableEq, Repr

/-- One 2-D mouth point `{x, y}`. -/
structure MouthPoint where
  x : ℚ
  y : ℚ
deriving DecidableEq, Repr

/-- The four mouth landmarks the vision stage extracts. -/
structure MouthData where
  top : MouthPoint
  bottom : MouthPoint
  left_corner : MouthPoint
  right_corner : MouthPoint
deriving DecidableEq, Repr

/-- `body_bounds`: `{min_y, max_y, height}`. -/
structure BodyBounds where
  min_y : ℚ
  max_y : ℚ
  height : ℚ
deriving DecidableEq, Repr

/-- The landmark report.  The python code initializes
`data = {"joints": {}, "mouth": {}, "body_bounds": {}}` and fills sections
only when detections exist; an empty dict section is `[]` / `none` here. -/
structure Report where
  joints : List (Nat × JointData)
  mouth : Option MouthData
  body_bounds : Option BodyBounds
deriving DecidableEq, Repr

/-- The report returned when nothing was detected (or the image was
unreadable): `{"joints": {}, "mouth": {}, "body_bounds": {}}`. -/
def emptyReport : Report := ⟨[], none, none⟩

/-- Input to `analyze_image`, abstracting the image plus the two MediaPipe
model results on it: `poseLandmarks` models `results.pose_landmarks`
(`none` = no pose detected), `faceLandmarks` models
`results.multi_face_landmarks[0].landmark` as an index function
(`none` = no face detected). -/
structure ImageData where
  poseLandmarks : Option (List JointData)
  faceLandmarks : Option (Nat → MouthPoint)

/-- `vision_brain.py: analyze_image`.  The argument is `none` when
`cv2.imread` returned `None` (unreadable image).  Mirrors the source: start
from the empty report; fill `joints` and `body_bounds` only when a pose was
detected; fill `mouth` (landmarks 13, 14, 61, 291) only when a face was
detected.  (`min`/`max` of the y-coordinates use a default for the empty
list; MediaPipe pose results always carry 33 landmarks.) -/
def analyze_image (img : Option ImageData) : Report :=
  match img with
  | none => emptyReport
  | some im =>
    let joints :=
      match im.poseLandmarks with
      | none => ([] : List (Nat × JointData))
      | some lms => lms.enum
    let bb :=
      match im.poseLandmarks with
      | none => none
      | some lms =>
        let ys := lms.map (fun lm => lm.y)
        let lo := ys.min?.getD 0
        let hi := ys.max?.getD 0
        some { min_y := lo, max_y := hi, height := hi - lo }
    let mouth :=
      match im.faceLandmarks with
      | none => none
      | some f =>
        some { top := f 13, bottom := f 14, left_corner := f 61, right_corner := f 291 }
    { joints := joints, mouth := mouth, body_bounds := bb }

/-! ## Rigging stage (`scripts/02_smart_rig.py`) -/

/-- z-coordinates of the mesh's bounding-box corners (`p[2] for p in bbox`). -/
def zCoords (o : Obj) : List ℚ := o.boundBox.map fun p => p.2.2

/-- `min_z = min([p[2] for p in bbox])` (default for the empty list; a
Blender `bound_box` always has 8 corners). -/
def minZ (o : Obj) : ℚ := (zCoords o).min?.getD 0

/-- `max_z = max([p[2] for p in bbox])`. -/
def maxZ (o : Obj) : ℚ := (zCoords o).max?.getD 0

/-- `mesh_height = max_z - min_z`: the mesh's vertical bounding extent. -/
def meshHeight (o : Obj) : ℚ := maxZ o - minZ o

/-- Python truthiness of `vision.get("body_bounds", {}).get("height")`:
the key chain resolves to a value and that value is a nonzero float. -/
def visionHasHeight (v : Report) : Bool :=
  match v.body_bounds with
  | some bb => bb.height ≠ 0
  | none => false

/-- The scale computation of `02_smart_rig.py` (lines 46–51): one branch per
`body_bounds.height` truthiness — both compute `mesh_height / 1.75`. -/
def computeScale (v : Report) (mesh_height : ℚ) : ℚ :=
  if visionHasHeight v then
    mesh_height / (1.75 : ℚ)
  else
    mesh_height / (1.75 : ℚ)

/-- The human metarig object after `armature_human_metarig_add` and the
script's mutations `rig.scale = (scale, scale, scale)`;
`rig.location.z = min_z`. -/
def metarig (s z : ℚ) : Obj :=
  { type := ObjType.ARMATURE, parentType := none, boundBox := [],
    scale := (s, s, s), locZ := z, shapeKeyNames := none }

/-- Outcome of one pipeline script: the process exit code and the scene
written to the output path (`none` when the script exited before export). -/
structure StageOutcome where
  exit : Nat
  output : Option Scene
deriving DecidableEq, Repr

/-- `scripts/02_smart_rig.py`.  `bindOk` models whether
`bpy.ops.object.parent_set(type='ARMATURE_AUTO')` succeeded (its failure is
caught and only warned about).  Mirrors the script: no mesh → `sys.exit(1)`
with nothing written; mesh already parented to an armature → re-export the
imported scene and `sys.exit(0)`; otherwise add the metarig scaled by
`computeScale`, positioned at the mesh's lowest point, bind, and export. -/
def smartRig (scene : Scene) (vision : Report) (bindOk : Bool) : StageOutcome :=
  match firstMesh scene with
  | none => ⟨1, none⟩
  | some mesh =>
    if mesh.parentType = some ObjType.ARMATURE then
      ⟨0, some scene⟩
    else
      let s := computeScale vision (meshHeight mesh)
      let rig := metarig s (minZ mesh)
      let mesh' := if bindOk then { mesh with parentType := some ObjType.ARMATURE } else mesh
      ⟨0, some (replaceFirstMesh scene mesh' ++ [rig])⟩

/-! ## Face-setup stage (`scripts/03_face_setup.py`) -/

/-- The canonical blendshape slot names: `"Basis"` plus the 13
viseme/expression names (`vrm_shapes` in the script). -/
def vrm_shapes : List String :=
  ["Basis",
   "aa", "ih", "ou", "ee", "oh",
   "neutral", "joy", "angry", "sorrow", "fun",
   "blink", "blink_l", "blink_r"]

/-- The script's creation loop: for each name of `shapes`, append it to the
current key-block list iff it is not already present
(`if shape_name not in mesh.data.shape_keys.key_blocks: mesh.shape_key_add`). -/
def addMissing (shapes : List String) (ks : List String) : List String :=
  shapes.foldl (fun acc name => if name ∈ acc then acc else acc ++ [name]) ks

/-- Shape-key names after the face-setup stage ran on a mesh whose key
blocks were `ks` (`none` = `mesh.data.shape_keys` is `None`, in which case a
`"Basis"` key is created first). -/
def faceSetupKeys (ks : Option (List String)) : List String :=
  let ks0 := match ks with
    | none => ["Basis"]
    | some l => l
  addMissing vrm_shapes ks0

/-- `scripts/03_face_setup.py` (the vision JSON is loaded but unused by the
slot-creation logic).  No mesh → `sys.exit(1)` with nothing written;
otherwise ensure the canonical shape-key slots on the first mesh and
export. -/
def faceSetup (scene : Scene) (vision : Report) : StageOutcome :=
  match firstMesh scene with
  | none => ⟨1, none⟩
  | some mesh =>
    let mesh' := { mesh with shapeKeyNames := some (faceSetupKeys mesh.shapeKeyNames) }
    ⟨0, some (replaceFirstMesh scene mesh')⟩

/-! ## Export stage (`scripts/04_export_vrm.py`) -/

/-- Contents of a file written by the export stage: either a true VRM export
of the scene or a generic GLB scene export. -/
inductive FileContent where
  | vrm (scene : Scene)
  | glb (scene : Scene)
deriving DecidableEq, Repr

/-- The temp directory's files: path → contents. -/
abbrev FS : Type := String → Option FileContent

/-- Write (or overwrite) a file. -/
def setFile (fs : FS) (p : String) (c : FileContent) : FS :=
  fun q => if q = p then some c else fs q

/-- `os.rename(src, dst)`. -/
def renameFile (fs : FS) (src dst : String) : FS :=
  fun q => if q = dst then fs src else if q = src then none else fs q

/-- External conditions of the export stage: whether the VRM addon operator
exists (`hasattr(bpy.ops.export_scene, 'vrm')`) and whether calling it
raises. -/
structure ExportEnv where
  vrmAvailable : Bool
  vrmRaises : Bool
deriving DecidableEq, Repr

/-- The GLB fallback shared by the `else` and `except` branches of
`04_export_vrm.py`: export GLB to `output_path.replace('.vrm', '.glb')`,
then `os.rename` it onto the requested output path. -/
def glbFallback (scene : Scene) (output_path : String) (fs : FS) : FS :=
  let output_path_glb := output_path.replace ".vrm" ".glb"
  renameFile (setFile fs output_path_glb (FileContent.glb scene)) output_path_glb output_path

/-- `scripts/04_export_vrm.py`, from the `try` block on: if the VRM operator
is available and does not raise, write a VRM export at the output path; if
it is unavailable (`else` branch) or raises (`except` branch), run the GLB
fallback. -/
def exportVrmStage (env : ExportEnv) (scene : Scene) (output_path : String) (fs : FS) : FS :=
  if env.vrmAvailable then
    if env.vrmRaises then
      glbFallback scene output_path fs
    else
      setFile fs output_path (FileContent.vrm scene)
  else
    glbFallback scene output_path fs

/-! ## `pathlib` path names (`Path(...).stem`, `Path(...).name`) -/

/-- Index of the last occurrence of `c` (`str.rfind`), as an option. -/
def rfindChar (c : Char) : List Char → Option Nat
  | [] => none
  | a :: as =>
    match rfindChar c as with
    | some i => some (i + 1)
    | none => if a = c then some 0 else none

/-- Split at `'/'` separators (used to model `PurePosixPath` components). -/
def splitSlash : List Char → List (List Char)
  | [] => [[]]
  | c :: cs =>
    match splitSlash cs with
    | [] => [[]]
    | g :: gs => if c = '/' then [] :: g :: gs else (c :: g) :: gs

/-- `PurePosixPath(s).name`: the last path component, with empty and `"."`
components dropped (pathlib drops them when parsing). -/
def nameCore (s : List Char) : List Char :=
  (((splitSlash s).filter fun comp => !(comp == []) && !(comp == ['.'])).getLast?).getD []

/-- `PurePosixPath` stem logic on the name: with `i = name.rfind('.')`, the
stem is `name[:i]` when `0 < i < len(name) - 1`, else the whole name. -/
def stemCore (name : List Char) : List Char :=
  match rfindChar '.' name with
  | none => name
  | some i => if 0 < i ∧ i < name.length - 1 then name.take i else name

/-- `Path(s).stem`. -/
def pathStem (s : String) : String :=
  String.mk (stemCore (nameCore s.toList))

/-! ## Glob matching (`pathlib.Path.glob`, via `fnmatch.translate`)

`pathlib` compiles each glob component with `fnmatch.translate`, which
recognizes `*`, `?` and character classes `[seq]` / `[!seq]` (with `-`
ranges), and treats a `[` with no closing `]` as a literal.  We mirror that
structure: `globTranslate` parses the pattern into tokens the way
`translate` scans it, and `globMatchToks` runs the resulting matcher. -/

/-- `fnmatch.translate`'s scan for the `]` closing a character class: the
class body starts after `[`, a leading `!` and a `]` right after it (or
right after the `[`) are part of the body, and the first `]` past that
point closes the class.  Returns the index of that closing `]` into the
list that follows the `[`, or `none` when the class is unterminated. -/
def classEnd (ps : List Char) : Option Nat :=
  let j0 : Nat :=
    match ps with
    | '!' :: ']' :: _ => 2
    | '!' :: _ => 1
    | ']' :: _ => 1
    | _ => 0
  match (ps.drop j0).findIdx? (fun c => c = ']') with
  | some k => some (j0 + k)
  | none => none

/-- Membership of a character in a (non-negated) class body, with `x-y`
ranges: a `-` with a character on each side denotes the inclusive
code-point range, any other character (including a leading or trailing
`-`) stands for itself.  This is the semantics of the regex class
`fnmatch.translate` builds from the body. -/
def classMembers : List Char → Char → Bool
  | [], _ => false
  | a :: '-' :: b :: rest, c =>
    (decide (a.val ≤ c.val) && decide (c.val ≤ b.val)) || classMembers rest c
  | a :: rest, c => (a == c) || classMembers rest c

/-- One token of a translated glob pattern. -/
inductive GlobTok where
  | star
  | anyChar
  | lit (c : Char)
  | cls (neg : Bool) (body : List Char)
deriving DecidableEq, Repr

/-- The pattern scan of `fnmatch.translate`: `*` and `?` become their
tokens; `[` opens a class when `classEnd` finds its closing `]` (a leading
`!` in the body negates the class) and is a literal otherwise; every other
character is a literal. -/
def globTranslate (p : List Char) : List GlobTok :=
  match p with
  | [] => []
  | '*' :: ps => GlobTok.star :: globTranslate ps
  | '?' :: ps => GlobTok.anyChar :: globTranslate ps
  | '[' :: ps =>
    match classEnd ps with
    | none => GlobTok.lit '[' :: globTranslate ps
    | some j =>
      (match ps.take j with
       | '!' :: body => GlobTok.cls true body
       | body => GlobTok.cls false body) :: globTranslate (ps.drop (j + 1))
  | c :: ps => GlobTok.lit c :: globTranslate ps
termination_by p.length
decreasing_by
  all_goals simp [List.length_drop]
  all_goals omega

/-- Matching a string against translated glob tokens: `star` consumes any
run, `anyChar` one character, `lit` that character, and `cls` one character
in (or, negated, not in) the class body. -/
def globMatchToks : List GlobTok → List Char → Bool
  | [], [] => true
  | [], _ :: _ => false
  | GlobTok.star :: ts, [] => globMatchToks ts []
  | GlobTok.star :: ts, c :: cs =>
    globMatchToks ts (c :: cs) || globMatchToks (GlobTok.star :: ts) cs
  | GlobTok.anyChar :: _, [] => false
  | GlobTok.anyChar :: ts, _ :: cs => globMatchToks ts cs
  | GlobTok.lit _ :: _, [] => false
  | GlobTok.lit p :: ts, c :: cs => (p == c) && globMatchToks ts cs
  | GlobTok.cls _ _ :: _, [] => false
  | GlobTok.cls neg body :: ts, c :: cs =>
    (if neg then !(classMembers body c) else classMembers body c) && globMatchToks ts cs
termination_by ts s => (ts.length, s.length)

/-- Glob pattern match on strings, as `pathlib.Path.glob` matches one name
component. -/
def globMatchS (pat s : String) : Bool :=
  globMatchToks (globTranslate pat.toList) s.toList

/-! ## Server (`server.py`) -/

/-- The three cleanup glob patterns of `cleanup_file`, from
`base_name = Path(filename).stem`. -/
def cleanupPatterns (filename : String) : List String :=
  let base_name := pathStem filename
  [base_name ++ ".*", base_name ++ "_rigged.*", base_name ++ "_face.*"]

/-- `DELETE /cleanup/{filename}`: for each pattern in order, glob the
current temp-directory listing and unlink every match.  Returns the
remaining listing. -/
def cleanup_file (filename : String) (files : List String) : List String :=
  (cleanupPatterns filename).foldl
    (fun fs pat => fs.filter fun f => !(globMatchS pat f)) files

/-- The artifact paths `convert_to_vrm` derives for one upload, all under
`TEMP_DIR = "temp"` and keyed by `base_name = Path(file.filename).stem`. -/
structure ArtifactNames where
  input : String
  img : String
  json : String
  rigged : String
  face : String
  final : String
deriving DecidableEq, Repr

/-- The artifact naming of `convert_to_vrm` (server.py lines 41–70). -/
def artifactNames (uploadFilename : String) : ArtifactNames :=
  let base_name := pathStem uploadFilename
  { input := "temp/" ++ base_name ++ ".glb"
    img := "temp/" ++ base_name ++ ".png"
    json := "temp/" ++ base_name ++ ".json"
    rigged := "temp/" ++ base_name ++ "_rigged.glb"
    face := "temp/" ++ base_name ++ "_face.glb"
    final := "temp/" ++ base_name ++ ".vrm" }

/-! ## Orchestrator (`server.py: convert_to_vrm`) -/

/-- Result of one external stage process as `subprocess.run` reports it
(`capture_output=True, text=True` in `run_blender`). -/
structure ProcResult where
  returncode : Int
  stderr : String
deriving DecidableEq, Repr

/-- External-world behaviour of one conversion request: the result of each
of the five stage processes, whether `python`'s `signal.Signals(-rc)` lookup
for the vision process would succeed (its `repr`), and whether the final
`.vrm` file exists after the export stage. -/
structure PipelineEnv where
  snap : ProcResult
  visionResult : ProcResult
  visionSignalRepr : Option String
  rig : ProcResult
  face : ProcResult
  exportProc : ProcResult
  finalExists : Bool

/-- The message of the exception `run_blender` raises on a non-zero exit:
`f"Blender script failed: {result.stderr}"`. -/
def blenderErrorMsg (r : ProcResult) : String :=
  "Blender script failed: " ++ r.stderr

/-- A single-quote character (python's `repr` quotes). -/
def pyQuote : String := String.mk [Char.ofNat 39]

/-- Python `repr` of a list of strings, e.g. `['python', 'vision_brain.py']`. -/
def pyListRepr (xs : List String) : String :=
  "[" ++ String.intercalate ", " (xs.map fun s => pyQuote ++ s ++ pyQuote) ++ "]"

/-- `str` of the `subprocess.CalledProcessError` that
`subprocess.run(cmd, check=True)` raises on a non-zero return code. -/
def calledProcessErrorMsg (cmd : List String) (rc : Int) (sigRepr : Option String) : String :=
  if rc < 0 then
    match sigRepr with
    | some s => "Command " ++ pyQuote ++ pyListRepr cmd ++ pyQuote ++ " died with " ++ s ++ "."
    | none =>
      "Command " ++ pyQuote ++ pyListRepr cmd ++ pyQuote ++ " died with unknown signal " ++
        toString (-rc) ++ "."
  else
    "Command " ++ pyQuote ++ pyListRepr cmd ++ pyQuote ++ " returned non-zero exit status " ++
      toString rc ++ "."

/-- The vision stage's command line (server.py line 58). -/
def visionCmd (base_name : String) : List String :=
  ["python", "vision_brain.py", "temp/" ++ base_name ++ ".png", "temp/" ++ base_name ++ ".json"]

/-- The JSON body `convert_to_vrm` answers with: `status`/`message` always,
plus `vrm_filename` and `download_url` on success only (the error body has
no further field — in particular no stage identifier). -/
inductive ConvResponse where
  | success (message vrm_filename download_url : String)
  | error (message : String)
deriving DecidableEq, Repr

/-- `run_blender`, instrumented with the count of stage processes launched
so far: raises (as the `Except` error, carrying the message and the count)
iff the process exited non-zero. -/
def runBlenderStep (r : ProcResult) (n : Nat) : Except (String × Nat) Nat :=
  if r.returncode ≠ 0 then Except.error (blenderErrorMsg r, n + 1) else Except.ok (n + 1)

/-- The vision step, `subprocess.run([...], check=True)`: raises a
`CalledProcessError` iff the process exited non-zero. -/
def runVisionStep (base_name : String) (env : PipelineEnv) (n : Nat) : Except (String × Nat) Nat :=
  if env.visionResult.returncode ≠ 0 then
    Except.error
      (calledProcessErrorMsg (visionCmd base_name) env.visionResult.returncode
        env.visionSignalRepr, n + 1)
  else Except.ok (n + 1)

/-- The `try` block of `convert_to_vrm`: the five stages in order, then the
final-file existence re-check, then the success body. -/
def pipelineBody (base_name : String) (env : PipelineEnv) :
    Except (String × Nat) (ConvResponse × Nat) := do
  let n ← runBlenderStep env.snap 0
  let n ← runVisionStep base_name env n
  let n ← runBlenderStep env.rig n
  let n ← runBlenderStep env.face n
  let n ← runBlenderStep env.exportProc n
  if env.finalExists then
    pure (ConvResponse.success "Conversion completed successfully"
      (base_name ++ ".vrm") ("/download-vrm/" ++ (base_name ++ ".vrm")), n)
  else
    Except.error ("VRM export failed - file not created", n)

/-- `POST /convert-to-vrm/`: the `try/except` around the pipeline.  Returns
the response body together with the number of stage processes that were
launched. -/
def convert_to_vrm (uploadFilename : String) (env : PipelineEnv) : ConvResponse × Nat :=
  match pipelineBody (pathStem uploadFilename) env with
  | Except.ok (r, n) => (r, n)
  | Except.error (msg, n) => (ConvResponse.error msg, n)

/-! ## Concrete sample data (used by witnesses) -/

/-- A mesh object with no parent and a vertical bounding extent of `7/2`. -/
def sampleMesh : Obj :=
  { type := ObjType.MESH, parentType := none,
    boundBox := [(0, 0, 0), (0, 0, (7 : ℚ) / 2)], scale := (1, 1, 1), locZ := 0,
    shapeKeyNames := none }

/-- `sampleMesh` already parented to an armature. -/
def sampleRiggedMesh : Obj :=
  { type := ObjType.MESH, parentType := some ObjType.ARMATURE,
    boundBox := [(0, 0, 0), (0, 0, (7 : ℚ) / 2)], scale := (1, 1, 1), locZ := 0,
    shapeKeyNames := none }

/-- A plain armature object. -/
def sampleArmature : Obj := metarig 1 0

/-- A landmark report with a non-empty `body_bounds.height`. -/
def sampleReportWithHeight : Report :=
  { joints := [], mouth := none,
    body_bounds := some { min_y := 0, max_y := 1, height := 1 } }

/-- An image on which MediaPipe detected neither a pose nor a face. -/
def sampleBlankImage : ImageData :=
  { poseLandmarks := none, faceLandmarks := none }

/-- A pipeline environment where every stage succeeds and the final file
exists. -/
def envAllOk : PipelineEnv :=
  { snap := ⟨0, ""⟩, visionResult := ⟨0, ""⟩, visionSignalRepr := none,
    rig := ⟨0, ""⟩, face := ⟨0, ""⟩, exportProc := ⟨0, ""⟩, finalExists := true }

/-- A pipeline environment where the rigging stage's process fails. -/
def envRigFails : PipelineEnv :=
  { snap := ⟨0, ""⟩, visionResult := ⟨0, ""⟩, visionSignalRepr := none,
    rig := ⟨1, "boom"⟩, face := ⟨0, ""⟩, exportProc := ⟨0, ""⟩, finalExists := true }

/-- A pipeline environment where every stage succeeds but the final file is
missing after export. -/
def envNoFinalFile : PipelineEnv :=
  { snap := ⟨0, ""⟩, visionResult := ⟨0, ""⟩, visionSignalRepr := none,
    rig := ⟨0, ""⟩, face := ⟨0, ""⟩, exportProc := ⟨0, ""⟩, finalExists := false }

/-! ## Helper lemmas -/

theorem find?_mesh_type {s : Scene} {m : Obj} (h : firstMesh s = some m) :
    m.type = ObjType.MESH := by
  have := List.find?_some h
  simpa using this

theorem firstMesh_replaceFirstMesh {s : Scene} {m : Obj} (m' : Obj)
    (hm : firstMesh s = some m) (ht : m'.type = ObjType.MESH) :
    firstMesh (replaceFirstMesh s m') = some m' := by
  induction s with
  | nil => simp [firstMesh] at hm
  | cons o os ih =>
    by_cases h : o.type = ObjType.MESH
    · simp only [replaceFirstMesh, if_pos h]
      unfold firstMesh
      rw [List.find?_cons_of_pos _ (by simpa using ht)]
    · simp only [replaceFirstMesh, if_neg h]
      unfold firstMesh at hm ⊢
      rw [List.find?_cons_of_neg _ (by simpa using h)] at hm ⊢
      exact ih hm

theorem replaceFirstMesh_self {s : Scene} {m : Obj} (hm : firstMesh s = some m) :
    replaceFirstMesh s m = s := by
  induction s with
  | nil => rfl
  | cons o os ih =>
    by_cases h : o.type = ObjType.MESH
    · have heq : o = m := by
        unfold firstMesh at hm
        rw [List.find?_cons_of_pos _ (by simpa using h)] at hm
        exact Option.some_injective _ hm
      subst heq
      simp [replaceFirstMesh, h]
    · unfold firstMesh at hm
      rw [List.find?_cons_of_neg _ (by simpa using h)] at hm
      simp [replaceFirstMesh, h, ih hm]

theorem mem_addMissing_of_mem {shapes ks : List String} {a : String} (h : a ∈ ks) :
    a ∈ addMissing shapes ks := by
  induction shapes generalizing ks with
  | nil => simpa [addMissing] using h
  | cons n rest ih =>
    simp only [addMissing, List.foldl_cons]
    by_cases hn : n ∈ ks
    · simpa [hn, addMissing] using ih h
    · exact ih (by simp [hn, h])

theorem mem_addMissing_of_mem_shapes {shapes ks : List String} {a : String}
    (h : a ∈ shapes) : a ∈ addMissing shapes ks := by
  induction shapes generalizing ks with
  | nil => simp at h
  | cons n rest ih =>
    simp only [addMissing, List.foldl_cons]
    rcases List.mem_cons.mp h with rfl | h
    · by_cases hn : a ∈ ks
      · simpa [hn, addMissing] using @mem_addMissing_of_mem rest ks a hn
      · exact mem_addMissing_of_mem (by simp [hn])
    · exact ih h

theorem addMissing_eq_of_subset {shapes ks : List String}
    (h : ∀ a ∈ shapes, a ∈ ks) : addMissing shapes ks = ks := by
  induction shapes with
  | nil => rfl
  | cons n rest ih =>
    have hn : n ∈ ks := h n (by simp)
    simp only [addMissing, List.foldl_cons, if_pos hn]
    exact ih fun a ha => h a (by simp [ha])

theorem faceSetupKeys_idem (ks : Option (List String)) :
    faceSetupKeys (some (faceSetupKeys ks)) = faceSetupKeys ks := by
  unfold faceSetupKeys
  exact addMissing_eq_of_subset fun a ha => mem_addMissing_of_mem_shapes ha

theorem rfindChar_eq_none {c : Char} {l : List Char} (h : c ∉ l) :
    rfindChar c l = none := by
  induction l with
  | nil => rfl
  | cons a as ih =>
    have hne : a ≠ c := fun hac => h (by simp [hac])
    have : rfindChar c as = none := ih fun hc => h (by simp [hc])
    simp [rfindChar, this, hne]

theorem rfindChar_append_last (c : Char) (xs : List Char) {ys : List Char}
    (h : c ∉ ys) : rfindChar c (xs ++ c :: ys) = some xs.length := by
  induction xs with
  | nil =>
    simp [rfindChar, rfindChar_eq_none h]
  | cons a as ih =>
    simp [rfindChar, ih]

theorem splitSlash_no_slash {l : List Char} (h : '/' ∉ l) :
    splitSlash l = [l] := by
  induction l with
  | nil => rfl
  | cons c cs ih =>
    have hc : c ≠ '/' := fun hce => h (by simp [hce])
    have : splitSlash cs = [cs] := ih fun hcs => h (by simp [hcs])
    simp [splitSlash, this, hc]

theorem toList_ne_nil {s : String} (h : s ≠ "") : s.toList ≠ [] := by
  intro hl
  apply h
  cases s
  simp_all [String.toList]

theorem pathStem_concat (stem ext : String)
    (h1 : stem ≠ "") (h3 : '/' ∉ stem.toList)
    (h4 : ext ≠ "") (h5 : '.' ∉ ext.toList) (h6 : '/' ∉ ext.toList) :
    pathStem (stem ++ "." ++ ext) = stem := by
  have hs : stem.toList ≠ [] := toList_ne_nil h1
  have he : ext.toList ≠ [] := toList_ne_nil h4
  have htl : (stem ++ "." ++ ext).toList = stem.toList ++ '.' :: ext.toList := by
    simp [String.toList, String.data_append]
  have hslash : '/' ∉ stem.toList ++ '.' :: ext.toList := by
    intro hmem
    rcases List.mem_append.mp hmem with hmem | hmem
    · exact h3 hmem
    · rcases List.mem_cons.mp hmem with hmem | hmem
      · exact absurd hmem (by decide)
      · exact h6 hmem
  have hne2 : stem.toList ++ '.' :: ext.toList ≠ ['.'] := by
    intro hcontra
    have hlen := congrArg List.length hcontra
    rw [List.length_append] at hlen
    simp only [List.length_cons, List.length_nil] at hlen
    exact hs (List.length_eq_zero.mp (by omega))
  have hname : nameCore ((stem ++ "." ++ ext).toList) = stem.toList ++ '.' :: ext.toList := by
    rw [htl]
    unfold nameCore
    rw [splitSlash_no_slash hslash]
    have hfil : List.filter (fun comp => !(comp == ([] : List Char)) && !(comp == ['.']))
        [stem.toList ++ '.' :: ext.toList] = [stem.toList ++ '.' :: ext.toList] := by
      rw [List.filter_cons_of_pos]
      · rfl
      · have hne2d : stem.data ++ '.' :: ext.data ≠ ['.'] := by
          simpa [String.toList] using hne2
        simp [hne2d]
    rw [hfil]
    rfl
  have hrfind : rfindChar '.' (stem.toList ++ '.' :: ext.toList) = some stem.toList.length :=
    rfindChar_append_last '.' stem.toList h5
  have hcond : 0 < stem.toList.length ∧
      stem.toList.length < (stem.toList ++ '.' :: ext.toList).length - 1 := by
    refine ⟨List.length_pos.mpr hs, ?_⟩
    have hext : 0 < ext.toList.length := List.length_pos.mpr he
    rw [List.length_append]
    simp only [List.length_cons]
    omega
  have hstem : stemCore (stem.toList ++ '.' :: ext.toList) = stem.toList := by
    simp only [stemCore, hrfind]
    rw [if_pos hcond]
    exact List.take_left _ _
  unfold pathStem
  rw [hname, hstem]
  cases stem
  rfl

/-! ## Claim theorems -/

/-- C1: for a mesh without a pre-existing skeleton, the rigging stage
appends a skeleton whose uniform scale factor is `H / 1.75` (with `H` the
mesh's vertical bounding extent), and the stage's result is identical for
any two landmark reports — in particular whether or not the report carries
a non-empty `body_bounds.height` (both branches compute the same formula). -/
theorem rig_scale_is_height_div_human (scene : Scene) (v v' : Report) (bindOk : Bool)
    (mesh : Obj) (hm : firstMesh scene = some mesh)
    (hp : mesh.parentType ≠ some ObjType.ARMATURE)
    (hbb : mesh.boundBox ≠ []) :
    (∃ pre rig, (smartRig scene v bindOk).output = some (pre ++ [rig]) ∧
      rig.type = ObjType.ARMATURE ∧
      rig.scale = (meshHeight mesh / (1.75 : ℚ), meshHeight mesh / (1.75 : ℚ),
        meshHeight mesh / (1.75 : ℚ))) ∧
    smartRig scene v bindOk = smartRig scene v' bindOk := by
  constructor
  · refine ⟨replaceFirstMesh scene
      (if bindOk then { mesh with parentType := some ObjType.ARMATURE } else mesh),
      metarig (computeScale v (meshHeight mesh)) (minZ mesh), ?_, rfl, ?_⟩
    · simp [smartRig, hm, hp]
    · simp [metarig, computeScale]
  · simp [smartRig, hm, hp, computeScale]

/-- C1 witness: a concrete unrigged one-mesh scene (height `7/2`), compared
across a report with a non-empty `body_bounds.height` and the empty one. -/
theorem rig_scale_is_height_div_human_witness :
    (∃ pre rig, (smartRig [sampleMesh] sampleReportWithHeight true).output =
        some (pre ++ [rig]) ∧
      rig.type = ObjType.ARMATURE ∧
      rig.scale = (meshHeight sampleMesh / (1.75 : ℚ), meshHeight sampleMesh / (1.75 : ℚ),
        meshHeight sampleMesh / (1.75 : ℚ))) ∧
    smartRig [sampleMesh] sampleReportWithHeight true =
      smartRig [sampleMesh] emptyReport true :=
  rig_scale_is_height_div_human [sampleMesh] sampleReportWithHeight emptyReport true
    sampleMesh rfl (by decide) (by decide)

/-- C2: if the first mesh already has an armature parent, the rigging stage
exits 0 and re-exports the imported scene unchanged — in particular the
number of armatures in the output equals that of the input (no second
skeleton is added). -/
theorem rig_noop_with_existing_armature (scene : Scene) (v : Report) (bindOk : Bool)
    (mesh : Obj) (hm : firstMesh scene = some mesh)
    (hp : mesh.parentType = some ObjType.ARMATURE) :
    (smartRig scene v bindOk).exit = 0 ∧
    (smartRig scene v bindOk).output = some scene ∧
    countArmatures (((smartRig scene v bindOk).output).getD []) = countArmatures scene := by
  simp [smartRig, hm, hp]

/-- C2 witness: a concrete scene whose mesh is parented to an armature. -/
theorem rig_noop_with_existing_armature_witness :
    (smartRig [sampleRiggedMesh, sampleArmature] emptyReport false).exit = 0 ∧
    (smartRig [sampleRiggedMesh, sampleArmature] emptyReport false).output =
      some [sampleRiggedMesh, sampleArmature] ∧
    countArmatures (((smartRig [sampleRiggedMesh, sampleArmature] emptyReport false).output).getD [])
      = countArmatures [sampleRiggedMesh, sampleArmature] :=
  rig_noop_with_existing_armature [sampleRiggedMesh, sampleArmature] emptyReport false
    sampleRiggedMesh rfl (by decide)

/-- C3: on an input with zero mesh objects, both the rigging stage and the
face-setup stage exit non-zero and write no output file. -/
theorem stages_fail_without_mesh (scene : Scene) (v : Report) (bindOk : Bool)
    (h : firstMesh scene = none) :
    (smartRig scene v bindOk).exit ≠ 0 ∧ (smartRig scene v bindOk).output = none ∧
    (faceSetup scene v).exit ≠ 0 ∧ (faceSetup scene v).output = none := by
  simp [smartRig, faceSetup, h]

/-- C3 witness: a scene holding only an armature (no mesh objects). -/
theorem stages_fail_without_mesh_witness :
    (smartRig [sampleArmature] emptyReport true).exit ≠ 0 ∧
    (smartRig [sampleArmature] emptyReport true).output = none ∧
    (faceSetup [sampleArmature] emptyReport).exit ≠ 0 ∧
    (faceSetup [sampleArmature] emptyReport).output = none :=
  stages_fail_without_mesh [sampleArmature] emptyReport true (by decide)

/-- C6: whenever the avatar-specific export capability is unavailable or
raises, the export stage leaves at the requested output path a file whose
contents are the generic GLB scene export. -/
theorem export_fallback_leaves_glb (env : ExportEnv) (scene : Scene)
    (output_path : String) (fs : FS)
    (h : env.vrmAvailable = false ∨ env.vrmRaises = true) :
    exportVrmStage env scene output_path fs output_path = some (FileContent.glb scene) := by
  have key : ∀ fs' : FS, glbFallback scene output_path fs' output_path =
      some (FileContent.glb scene) := by
    intro fs'
    simp [glbFallback, renameFile, setFile]
  rcases h with h | h
  · simp [exportVrmStage, h, key]
  · cases hav : env.vrmAvailable <;> simp [exportVrmStage, h, hav, key]

/-- C6 witness: VRM exporter unavailable, one-mesh scene, the server's real
output path, empty temp dir. -/
theorem export_fallback_leaves_glb_witness :
    exportVrmStage { vrmAvailable := false, vrmRaises := false } [sampleMesh]
      "temp/model.vrm" (fun _ => none) "temp/model.vrm" =
      some (FileContent.glb [sampleMesh]) :=
  export_fallback_leaves_glb _ _ _ _ (Or.inl rfl)

/-- C8: the vision stage is total and degrades gracefully: an unreadable
image yields the empty report `{joints: {}, mouth: {}, body_bounds: {}}`;
no detected pose leaves `joints` and `body_bounds` empty; no detected face
leaves `mouth` empty. -/
theorem vision_never_fails (img : Option ImageData) :
    (img = none → analyze_image img = emptyReport) ∧
    (∀ d, img = some d → d.poseLandmarks = none →
      (analyze_image img).joints = [] ∧ (analyze_image img).body_bounds = none) ∧
    (∀ d, img = some d → d.faceLandmarks = none → (analyze_image img).mouth = none) := by
  refine ⟨?_, ?_, ?_⟩
  · rintro rfl
    rfl
  · rintro d rfl hp
    simp [analyze_image, hp, emptyReport]
  · rintro d rfl hf
    simp [analyze_image, hf]

/-- C8 witness: the unreadable image, and a readable image with neither
pose nor face detected. -/
theorem vision_never_fails_witness :
    analyze_image none = emptyReport ∧
    ((analyze_image (some sampleBlankImage)).joints = [] ∧
      (analyze_image (some sampleBlankImage)).body_bounds = none) ∧
    (analyze_image (some sampleBlankImage)).mouth = none :=
  ⟨(vision_never_fails none).1 rfl,
   (vision_never_fails (some sampleBlankImage)).2.1 _ rfl rfl,
   (vision_never_fails (some sampleBlankImage)).2.2 _ rfl rfl⟩

/-- C7: the face-setup stage creates each canonical slot name only if
absent: after one run the first mesh carries every canonical name, and a
second run returns the very same output scene (so in particular the same
set of named blendshape slots). -/
theorem face_setup_idempotent (scene : Scene) (v v' : Report) (mesh : Obj)
    (hm : firstMesh scene = some mesh) :
    ∃ out m1, (faceSetup scene v).output = some out ∧
      firstMesh out = some m1 ∧
      (∃ keys, m1.shapeKeyNames = some keys ∧ ∀ name ∈ vrm_shapes, name ∈ keys) ∧
      (faceSetup out v').output = some out := by
  have hmt : mesh.type = ObjType.MESH := find?_mesh_type hm
  refine ⟨replaceFirstMesh scene
      { mesh with shapeKeyNames := some (faceSetupKeys mesh.shapeKeyNames) },
    { mesh with shapeKeyNames := some (faceSetupKeys mesh.shapeKeyNames) },
    ?_, ?_, ?_, ?_⟩
  · simp [faceSetup, hm]
  · exact firstMesh_replaceFirstMesh _ hm hmt
  · refine ⟨faceSetupKeys mesh.shapeKeyNames, rfl, ?_⟩
    intro name hname
    unfold faceSetupKeys
    exact mem_addMissing_of_mem_shapes hname
  · have h1 : firstMesh (replaceFirstMesh scene
        { mesh with shapeKeyNames := some (faceSetupKeys mesh.shapeKeyNames) }) =
        some { mesh with shapeKeyNames := some (faceSetupKeys mesh.shapeKeyNames) } :=
      firstMesh_replaceFirstMesh _ hm hmt
    simp only [faceSetup, h1]
    rw [faceSetupKeys_idem]
    exact congrArg some (replaceFirstMesh_self h1)

/-- C7 witness: a one-mesh scene whose mesh has no shape keys at all. -/
theorem face_setup_idempotent_witness :
    ∃ out m1, (faceSetup [sampleMesh] emptyReport).output = some out ∧
      firstMesh out = some m1 ∧
      (∃ keys, m1.shapeKeyNames = some keys ∧ ∀ name ∈ vrm_shapes, name ∈ keys) ∧
      (faceSetup out sampleReportWithHeight).output = some out :=
  face_setup_idempotent [sampleMesh] emptyReport sampleReportWithHeight sampleMesh rfl

/-- C4: when a stage's external process exits non-zero (and all earlier
stages succeeded), the endpoint answers `status:"error"` with the single
string message carrying that stage's captured error text (the error body
has no other field, in particular no stage identifier), and no later stage
process is launched: exactly as many processes ran as the failing stage's
position. -/
theorem stage_failure_aborts_pipeline (fn : String) (env : PipelineEnv) :
    (env.snap.returncode ≠ 0 →
      convert_to_vrm fn env = (ConvResponse.error (blenderErrorMsg env.snap), 1)) ∧
    (env.snap.returncode = 0 → env.visionResult.returncode ≠ 0 →
      convert_to_vrm fn env = (ConvResponse.error
        (calledProcessErrorMsg (visionCmd (pathStem fn)) env.visionResult.returncode
          env.visionSignalRepr), 2)) ∧
    (env.snap.returncode = 0 → env.visionResult.returncode = 0 → env.rig.returncode ≠ 0 →
      convert_to_vrm fn env = (ConvResponse.error (blenderErrorMsg env.rig), 3)) ∧
    (env.snap.returncode = 0 → env.visionResult.returncode = 0 → env.rig.returncode = 0 →
      env.face.returncode ≠ 0 →
      convert_to_vrm fn env = (ConvResponse.error (blenderErrorMsg env.face), 4)) ∧
    (env.snap.returncode = 0 → env.visionResult.returncode = 0 → env.rig.returncode = 0 →
      env.face.returncode = 0 → env.exportProc.returncode ≠ 0 →
      convert_to_vrm fn env = (ConvResponse.error (blenderErrorMsg env.exportProc), 5)) := by
  refine ⟨?_, ?_, ?_, ?_, ?_⟩
  · intro h1
    simp [convert_to_vrm, pipelineBody, runBlenderStep, runVisionStep, Bind.bind, Except.bind, h1]
  · intro h1 h2
    simp [convert_to_vrm, pipelineBody, runBlenderStep, runVisionStep, Bind.bind, Except.bind, h1, h2]
  · intro h1 h2 h3
    simp [convert_to_vrm, pipelineBody, runBlenderStep, runVisionStep, Bind.bind, Except.bind, h1, h2, h3]
  · intro h1 h2 h3 h4
    simp [convert_to_vrm, pipelineBody, runBlenderStep, runVisionStep, Bind.bind, Except.bind, h1, h2, h3, h4]
  · intro h1 h2 h3 h4 h5
    simp [convert_to_vrm, pipelineBody, runBlenderStep, runVisionStep, Bind.bind, Except.bind, h1, h2, h3, h4, h5]

/-- C4 witness: the rigging stage's process fails (stage 3); the response
carries its stderr in the message and only three processes ran. -/
theorem stage_failure_aborts_pipeline_witness :
    convert_to_vrm "model.glb" envRigFails =
      (ConvResponse.error (blenderErrorMsg envRigFails.rig), 3) :=
  (stage_failure_aborts_pipeline "model.glb" envRigFails).2.2.1 rfl rfl (by decide)

/-- C5: the endpoint answers success only when the final avatar file exists
on disk after the export stage; even when every stage process (export
included) exited 0, a missing final file yields an error response. -/
theorem success_requires_final_file (fn : String) (env : PipelineEnv) :
    (∀ m f u, (convert_to_vrm fn env).1 = ConvResponse.success m f u →
      env.finalExists = true) ∧
    (env.snap.returncode = 0 → env.visionResult.returncode = 0 → env.rig.returncode = 0 →
      env.face.returncode = 0 → env.exportProc.returncode = 0 → env.finalExists = false →
      convert_to_vrm fn env =
        (ConvResponse.error "VRM export failed - file not created", 5)) := by
  constructor
  · intro m f u h
    by_contra hne
    have hfe : env.finalExists = false := by
      cases hfe : env.finalExists
      · rfl
      · exact absurd hfe hne
    by_cases h1 : env.snap.returncode = 0 <;>
      by_cases h2 : env.visionResult.returncode = 0 <;>
      by_cases h3 : env.rig.returncode = 0 <;>
      by_cases h4 : env.face.returncode = 0 <;>
      by_cases h5 : env.exportProc.returncode = 0 <;>
      simp [convert_to_vrm, pipelineBody, runBlenderStep, runVisionStep, Bind.bind, Except.bind,
        h1, h2, h3, h4, h5, hfe] at h
  · intro h1 h2 h3 h4 h5 h6
    simp [convert_to_vrm, pipelineBody, runBlenderStep, runVisionStep, Bind.bind, Except.bind,
      h1, h2, h3, h4, h5, h6]

/-- C5 witness: every stage process succeeds but the final file is absent;
the endpoint answers with the error response. -/
theorem success_requires_final_file_witness :
    convert_to_vrm "model.glb" envNoFinalFile =
      (ConvResponse.error "VRM export failed - file not created", 5) :=
  (success_requires_final_file "model.glb" envNoFinalFile).2 rfl rfl rfl rfl rfl rfl

/-- C9: the cleanup endpoint deletes exactly the temp files whose names
match one of the three glob patterns `B.*`, `B_rigged.*`, `B_face.*` (with
`B` the stem of the request's filename): a file survives the cleanup iff it
was present and matches none of the three patterns. -/
theorem cleanup_deletes_exactly_matches (filename f : String) (files : List String) :
    f ∈ cleanup_file filename files ↔
      f ∈ files ∧
        ¬(globMatchS (pathStem filename ++ ".*") f = true ∨
          globMatchS (pathStem filename ++ "_rigged.*") f = true ∨
          globMatchS (pathStem filename ++ "_face.*") f = true) := by
  simp only [cleanup_file, cleanupPatterns, List.foldl_cons, List.foldl_nil,
    List.mem_filter, Bool.not_eq_true', Bool.not_eq_true]
  constructor
  · rintro ⟨⟨⟨hmem, hA⟩, hB⟩, hC⟩
    exact ⟨hmem, by simp [hA, hB, hC]⟩
  · rintro ⟨hmem, hnone⟩
    push_neg at hnone
    exact ⟨⟨⟨hmem, by simp [hnone.1]⟩, by simp [hnone.2.1]⟩, by simp [hnone.2.2]⟩

/-- C10: the conversion endpoint stores an upload named `{stem}.{ext}`
(stem free of `/`, extension free of `.` and `/`) at `temp/{stem}.glb` —
the original extension is dropped — and derives every artifact path of the
request from that same stem. -/
theorem upload_saved_as_stem_glb (stem ext : String)
    (h1 : stem ≠ "") (h3 : '/' ∉ stem.toList)
    (h4 : ext ≠ "") (h5 : '.' ∉ ext.toList) (h6 : '/' ∉ ext.toList) :
    (artifactNames (stem ++ "." ++ ext)).input = "temp/" ++ stem ++ ".glb" ∧
    (artifactNames (stem ++ "." ++ ext)).img = "temp/" ++ stem ++ ".png" ∧
    (artifactNames (stem ++ "." ++ ext)).json = "temp/" ++ stem ++ ".json" ∧
    (artifactNames (stem ++ "." ++ ext)).rigged = "temp/" ++ stem ++ "_rigged.glb" ∧
    (artifactNames (stem ++ "." ++ ext)).face = "temp/" ++ stem ++ "_face.glb" ∧
    (artifactNames (stem ++ "." ++ ext)).final = "temp/" ++ stem ++ ".vrm" := by
  have hstem : pathStem (stem ++ "." ++ ext) = stem :=
    pathStem_concat stem ext h1 h3 h4 h5 h6
  simp [artifactNames, hstem]

/-- C10 witness: the upload `model.fbx` is saved as `temp/model.glb` and
all artifact names use the stem `model`. -/
theorem upload_saved_as_stem_glb_witness :
    (artifactNames ("model" ++ "." ++ "fbx")).input = "temp/" ++ "model" ++ ".glb" ∧
    (artifactNames ("model" ++ "." ++ "fbx")).img = "temp/" ++ "model" ++ ".png" ∧
    (artifactNames ("model" ++ "." ++ "fbx")).json = "temp/" ++ "model" ++ ".json" ∧
    (artifactNames ("model" ++ "." ++ "fbx")).rigged = "temp/" ++ "model" ++ "_rigged.glb" ∧
    (artifactNames ("model" ++ "." ++ "fbx")).face = "temp/" ++ "model" ++ "_face.glb" ∧
    (artifactNames ("model" ++ "." ++ "fbx")).final = "temp/" ++ "model" ++ ".vrm" :=
  upload_saved_as_stem_glb "model" "fbx" (by decide) (by decide) (by decide)
    (by decide) (by decide)
